import Mathlib

/-!
Shallow embedding of the document-to-LLM orchestration layer of the
legal-document-simplifier repository (src/backend/legal_simplifier.py and
src/backend/api.py), together with theorems settling the frozen claims.

Python strings are modelled as `List Char` (sequences of code points).
External effects (the Groq chat-completion call, the file readers, the
wall clock, `json.loads`) are passed in as explicit parameters, so every
definition is executable.
-/

/-- Model of a Python `str` as a list of code points. -/
abbrev PyStr := List Char

/-- The backtick character, written via its code point. -/
def tick : Char := '\x60'

/-- Python whitespace characters recognised by `str.strip()` (ASCII subset:
space, tab, newline, carriage return, vertical tab, form feed). -/
def isPySpace (c : Char) : Bool :=
  c == ' ' || c == '\t' || c == '\n' || c == '\x0d' || c == '\x0b' || c == '\x0c'

/-- Model of Python `str.strip()`: drop leading and trailing whitespace. -/
def pyStrip (l : PyStr) : PyStr :=
  ((l.dropWhile isPySpace).reverse.dropWhile isPySpace).reverse

/-- Model of the Python substring test `pat in s`. -/
def containsSub (pat : PyStr) : PyStr → Bool
  | [] => pat.isEmpty
  | c :: rest => pat.isPrefixOf (c :: rest) || containsSub pat rest

/-- Worker for `pySplit`: scans the string left to right; `skip` counts
separator characters still to be consumed after a match (Python `str.split`
matches non-overlapping occurrences left to right). -/
def pySplitAux (p : Char) (ps : PyStr) : PyStr → Nat → PyStr → List PyStr
  | [], _, acc => [acc.reverse]
  | _ :: rest, Nat.succ skip, acc => pySplitAux p ps rest skip acc
  | c :: rest, 0, acc =>
    if (p :: ps).isPrefixOf (c :: rest) then
      acc.reverse :: pySplitAux p ps rest ps.length []
    else
      pySplitAux p ps rest 0 (c :: acc)

/-- Model of Python `s.split(pat)` for a non-empty separator `pat`
(Python raises `ValueError` on an empty separator, which never occurs in
this code base; we return `[s]` in that unused case). -/
def pySplit (pat : PyStr) (s : PyStr) : List PyStr :=
  match pat with
  | [] => [s]
  | p :: ps => pySplitAux p ps s 0 []

/-- Model of the Python slice `s[:n]`. -/
def pySlice (n : Nat) (s : PyStr) : PyStr := s.take n

/-- Model of Python `str.lower()` (ASCII behaviour, which is all the code
relies on for file extensions). -/
def pyLower (s : PyStr) : PyStr := s.map Char.toLower

/-- Model of `filename.rsplit('.', 1)[1]` for a filename containing a dot, and also
`file_path.split('.')[-1]`: the text after the last dot (the whole string
when no dot is present). -/
def afterLastDot (s : PyStr) : PyStr := (pySplit ['.'] s).getLastD s

/-- Model of `file_path.lower().split('.')[-1]`, the extension dispatch in
`load_document`. -/
def extensionOf (path : PyStr) : PyStr := afterLastDot (pyLower path)

/-- A parsed JSON value, the codomain of the model of `json.loads`
(numbers are simplified to integers; no claim depends on numerics). -/
inductive Json where
  | null : Json
  | bool : Bool → Json
  | num : Int → Json
  | str : PyStr → Json
  | arr : List Json → Json
  | obj : List (PyStr × Json) → Json

/-- Chat-completion message roles. -/
inductive Role where
  | system : Role
  | user : Role
  | assistant : Role
deriving DecidableEq, Repr

/-- One `{"role": ..., "content": ...}` message dict. -/
structure Message where
  role : Role
  content : PyStr
deriving DecidableEq, Repr

/-- The argument record of one `client.chat.completions.create(...)` call. -/
structure GatewayRequest where
  messages : List Message
  model : String
  temperature : ℚ
  max_tokens : Nat
deriving DecidableEq

/-- The external model call: returns the raw completion text, or the message
of the exception it raised. -/
abbrev Gateway := GatewayRequest → Except PyStr PyStr

/-- Model of `json.loads`: `none` models a raised `JSONDecodeError`. -/
abbrev JsonLoads := PyStr → Option Json

/-- One value of the `loaded_documents` dict. -/
structure DocEntry where
  text : PyStr
  path : PyStr
  loaded_at : PyStr
deriving DecidableEq, Repr

/-- Python dict update `d[k] = v`: overwrite in place, else append
(insertion order preserved, as in Python 3.7+). -/
def dictSet (d : List (PyStr × DocEntry)) (k : PyStr) (v : DocEntry) :
    List (PyStr × DocEntry) :=
  match d with
  | [] => [(k, v)]
  | (k', v') :: rest => if k' = k then (k', v) :: rest else (k', v') :: dictSet rest k v

/-- Python membership test `k in d`. -/
def dictContains (d : List (PyStr × DocEntry)) (k : PyStr) : Bool :=
  d.any (fun kv => kv.1 == k)

/-- Python lookup `d[k]` (guarded by membership wherever the source uses it). -/
def dictGet (d : List (PyStr × DocEntry)) (k : PyStr) : Option DocEntry :=
  (d.find? (fun kv => kv.1 == k)).map (fun kv => kv.2)

/-- The mutable fields of a `LegalDocumentSimplifier` instance. -/
structure SimplifierState where
  conversation_history : List Message
  loaded_documents : List (PyStr × DocEntry)
  current_analysis : Option PyStr
deriving DecidableEq

/-- A fresh instance: empty history, no documents, no analysis. -/
def emptyState : SimplifierState := ⟨[], [], none⟩

/-- The fixed model identifier passed to every completion call. -/
def modelId : String := "llama-3.3-70b-versatile"

/-- Model of `read_pdf`: the caught extraction outcome is passed in; on an exception
the function returns the error string instead of raising. -/
def read_pdf (extract : Except PyStr PyStr) : PyStr :=
  match extract with
  | Except.ok t => t
  | Except.error e => ("Error reading PDF: ").data ++ e

/-- Model of `read_docx`, same shape as `read_pdf`. -/
def read_docx (extract : Except PyStr PyStr) : PyStr :=
  match extract with
  | Except.ok t => t
  | Except.error e => ("Error reading DOCX: ").data ++ e

/-- Model of `read_txt`, same shape as `read_pdf`. -/
def read_txt (extract : Except PyStr PyStr) : PyStr :=
  match extract with
  | Except.ok t => t
  | Except.error e => ("Error reading TXT: ").data ++ e

/-- Model of `os.path.basename`, used when no document name is supplied. -/
def pyBasename (p : PyStr) : PyStr := (pySplit ['/'] p).getLastD p

/-- The message returned by `load_document` for an unknown extension. -/
def unsupportedMsg : PyStr :=
  ("Unsupported file format. Please use PDF, DOCX, or TXT files.").data

/-- Model of `load_document(file_path, doc_name)`: dispatch on the lowered extension,
then store the extracted text (whatever it is) under the resolved name.
`extract` is the outcome of the file read the chosen reader would perform;
`now` is the `datetime.now()` timestamp string. -/
def load_document (extract : Except PyStr PyStr) (now : PyStr)
    (file_path : PyStr) (doc_name : Option PyStr) (st : SimplifierState) :
    PyStr × SimplifierState :=
  let extension := extensionOf file_path
  let store : PyStr → PyStr × SimplifierState := fun text =>
    let name := match doc_name with
      | some n => if n = [] then pyBasename file_path else n
      | none => pyBasename file_path
    (text,
      { st with loaded_documents := dictSet st.loaded_documents name ⟨text, file_path, now⟩ })
  if extension = ("pdf").data then store (read_pdf extract)
  else if extension = ("docx").data then store (read_docx extract)
  else if extension = ("txt").data then store (read_txt extract)
  else (unsupportedMsg, st)

/-- The `"```json"` delimiter searched for in the concerns response. -/
def fenceJson : PyStr := ("\x60\x60\x60json").data

/-- The `"```"` delimiter searched for in the concerns response. -/
def fence : PyStr := ("\x60\x60\x60").data

/-- The concerns prompt (`highlight_concerning_clauses`), with the document
text truncated to 4000 characters. -/
def concernsPrompt (legal_text : PyStr) : PyStr :=
  ("You are a legal expert analyzing documents for potential concerns. \n\nAnalyze this legal document and identify concerning clauses or red flags. For each concerning clause:\n1. Quote the clause (keep it brief)\n2. Explain why it\x27s concerning in simple terms\n3. Rate the severity (LOW, MEDIUM, HIGH)\n\nReturn ONLY a JSON array with this exact structure:\n[\n  \x7b\n    \"clause\": \"brief quote of concerning text\",\n    \"concern\": \"explanation in plain language\",\n    \"severity\": \"HIGH/MEDIUM/LOW\",\n    \"recommendation\": \"what the reader should do\"\n  \x7d\n]\n\nLegal Text:\n").data
  ++ pySlice 4000 legal_text
  ++ ("\n\nReturn ONLY valid JSON, no other text.").data

/-- The request `highlight_concerning_clauses` sends to the model. -/
def concernsRequest (legal_text : PyStr) : GatewayRequest :=
  { messages :=
      [⟨Role.system, ("You are a legal expert who identifies concerning clauses. Return only valid JSON.").data⟩,
       ⟨Role.user, concernsPrompt legal_text⟩],
    model := modelId,
    temperature := 0.5,
    max_tokens := 2000 }

/-- The `result.split("\x60\x60\x60json")[1].split("\x60\x60\x60")[0].strip()` /
`result.split("\x60\x60\x60")[1].split("\x60\x60\x60")[0].strip()` / raw-text
region selection applied to the stripped model output before `json.loads`.
Under the guarding substring tests the Python indexings cannot raise, so the
`getD` defaults are never reached. -/
def extractJsonRegion (content : PyStr) : PyStr :=
  let result := pyStrip content
  if containsSub fenceJson result then
    pyStrip ((pySplit fence ((pySplit fenceJson result).getD 1 [])).getD 0 [])
  else if containsSub fence result then
    pyStrip ((pySplit fence ((pySplit fence result).getD 1 [])).getD 0 [])
  else
    result

/-- Parse the selected region with `json.loads`; a parse failure is caught
by the surrounding `except`, which returns the empty list. -/
def interpretModelJson (loads : JsonLoads) (content : PyStr) : Json :=
  match loads (extractJsonRegion content) with
  | some v => v
  | none => Json.arr []

/-- Model of `highlight_concerning_clauses`: build the prompt, call the model, select
the JSON region, parse it; any exception (gateway or parse) yields `[]`. -/
def highlight_concerning_clauses (gw : Gateway) (loads : JsonLoads)
    (legal_text : PyStr) : Json :=
  match gw (concernsRequest legal_text) with
  | Except.error _ => Json.arr []
  | Except.ok content => interpretModelJson loads content

/-- The simplify prompt when a query is supplied (text truncated to 3000). -/
def simplifyQueryPrompt (legal_text query : PyStr) : PyStr :=
  ("You are a legal document simplifier. A user has provided this legal text and has a specific question about it.\n\nLegal Text:\n").data
  ++ pySlice 3000 legal_text
  ++ ("\n\nUser Question: ").data ++ query
  ++ ("\n\nPlease answer their question in simple, plain language that anyone can understand. Avoid legal jargon and explain any complex terms you must use.").data

/-- The simplify prompt without a query (text truncated to 3000). -/
def simplifyPlainPrompt (legal_text : PyStr) : PyStr :=
  ("You are a legal document simplifier. Your job is to break down complex legal language into simple, easy-to-understand terms.\n\nPlease analyze this legal text and provide:\n1. A brief summary (2-3 sentences)\n2. Key points in plain language (numbered list)\n3. Important dates or deadlines mentioned\n4. Your obligations and rights\n\nLegal Text:\n").data
  ++ pySlice 3000 legal_text
  ++ ("\n\nRemember to use everyday language that anyone can understand.").data

/-- Truthiness test `if query:` — Python truthiness of the optional query string. -/
def optTruthy (o : Option PyStr) : Bool :=
  match o with
  | none => false
  | some s => !s.isEmpty

/-- The request `simplify_legal_text` sends to the model. -/
def simplifyRequest (legal_text : PyStr) (query : Option PyStr) : GatewayRequest :=
  let prompt :=
    match query with
    | some q => if q.isEmpty then simplifyPlainPrompt legal_text else simplifyQueryPrompt legal_text q
    | none => simplifyPlainPrompt legal_text
  { messages :=
      [⟨Role.system, ("You are a helpful legal document simplifier. You break down complex legal jargon into plain, simple language that anyone can understand.").data⟩,
       ⟨Role.user, prompt⟩],
    model := modelId,
    temperature := 0.7,
    max_tokens := 1500 }

/-- Model of `simplify_legal_text`: call the model; pass the content through
unmodified; on an exception return the descriptive message. -/
def simplify_legal_text (gw : Gateway) (legal_text : PyStr)
    (query : Option PyStr) : PyStr :=
  match gw (simplifyRequest legal_text query) with
  | Except.ok content => content
  | Except.error e => ("Error calling API: ").data ++ e

/-- The compare prompt; both document texts were truncated to 3000
characters at the lookup site in `compare_documents`. -/
def comparePrompt (doc1_name doc1_text doc2_name doc2_text : PyStr) : PyStr :=
  ("Compare these two legal documents and provide:\n1. Main differences between them\n2. Which document is more favorable and why\n3. Key clauses that differ\n4. Recommendations on which is better\n\nDocument 1 (").data
  ++ doc1_name ++ ("):\n").data ++ doc1_text
  ++ ("\n\nDocument 2 (").data ++ doc2_name ++ ("):\n").data ++ doc2_text
  ++ ("\n\nProvide a clear, easy-to-understand comparison.").data

/-- The request `compare_documents` sends to the model. -/
def compareRequest (doc1_name doc1_text doc2_name doc2_text : PyStr) : GatewayRequest :=
  { messages :=
      [⟨Role.system, ("You are a legal expert who compares documents and explains differences clearly.").data⟩,
       ⟨Role.user, comparePrompt doc1_name doc1_text doc2_name doc2_text⟩],
    model := modelId,
    temperature := 0.7,
    max_tokens := 2000 }

/-- The not-found message `compare_documents` returns without calling the
model. -/
def compareNotFoundMsg : PyStr :=
  ("One or both documents not found. Please load them first.").data

/-- Model of `compare_documents`: membership check on both names, then truncate each
stored text to 3000 characters, call the model, and pass the content through
unmodified; on an exception return the descriptive message. -/
def compare_documents (gw : Gateway) (doc1_name doc2_name : PyStr)
    (st : SimplifierState) : PyStr :=
  if !(dictContains st.loaded_documents doc1_name) || !(dictContains st.loaded_documents doc2_name) then
    compareNotFoundMsg
  else
    let doc1_text := pySlice 3000 ((dictGet st.loaded_documents doc1_name).getD ⟨[], [], []⟩).text
    let doc2_text := pySlice 3000 ((dictGet st.loaded_documents doc2_name).getD ⟨[], [], []⟩).text
    match gw (compareRequest doc1_name doc1_text doc2_name doc2_text) with
    | Except.ok content => content
    | Except.error e => ("Error comparing documents: ").data ++ e

/-- The user turn content of a `chat` call: document context (truncated to
2000 characters) plus the question when a truthy context is supplied, the
bare message otherwise. -/
def contextPrompt (document_context : Option PyStr) (user_message : PyStr) : PyStr :=
  match document_context with
  | some d =>
      if d.isEmpty then user_message
      else ("Document Context:\n").data ++ pySlice 2000 d ++ ("\n\nUser Question: ").data ++ user_message
  | none => user_message

/-- The request `chat` sends to the model: the fixed system turn followed by
the full conversation history (which already ends with the new user turn). -/
def chatRequest (history : List Message) : GatewayRequest :=
  { messages :=
      ⟨Role.system, ("You are a legal document expert who explains things in simple terms. Be conversational, friendly, and avoid legal jargon.").data⟩ :: history,
    model := modelId,
    temperature := 0.7,
    max_tokens := 1000 }

/-- Model of `chat`: append the user turn to the history, call the model; on success
append the assistant turn and return the content unmodified; on an exception
return `"Error: ..."` and leave the history ending with the user turn. -/
def chat (gw : Gateway) (user_message : PyStr) (document_context : Option PyStr)
    (st : SimplifierState) : PyStr × SimplifierState :=
  let cp := contextPrompt document_context user_message
  let h1 := st.conversation_history ++ [⟨Role.user, cp⟩]
  match gw (chatRequest h1) with
  | Except.ok m =>
      (m, { st with conversation_history := h1 ++ [⟨Role.assistant, m⟩] })
  | Except.error e =>
      (("Error: ").data ++ e, { st with conversation_history := h1 })

/-- An HTTP-level failure response: status code and error message. -/
abbrev ApiErr := Nat × PyStr

/-- Flask truthiness of an optional JSON field (`if not doc_name`):
falsy when absent or the empty string. -/
def optFalsy (o : Option PyStr) : Bool :=
  match o with
  | none => true
  | some s => s.isEmpty

/-- Model of `allowed_file(filename)` from `api.py`: has a dot and the lowered text
after the last dot is one of `pdf`, `docx`, `txt`. -/
def allowed_file (filename : PyStr) : Bool :=
  containsSub ['.'] filename &&
    (pyLower (afterLastDot filename) == ("pdf").data
     || pyLower (afterLastDot filename) == ("docx").data
     || pyLower (afterLastDot filename) == ("txt").data)

/-- The upload folder prefixed to the saved file name. -/
def uploadFolder : PyStr := ("frontend/static/uploads/").data

/-- The success payload of `/api/upload`: resolved document name and the
length of the loaded text. -/
structure UploadOk where
  doc_name : PyStr
  length : Nat
deriving DecidableEq, Repr

/-- Model of `/api/upload` after transport validation: reject an empty or
disallowed filename, load the document, and report failure exactly when the
substring `"Error"` occurs in the text `load_document` returned. The
`doc_name` form field is a string, empty when not supplied. -/
def upload_document (extract : Except PyStr PyStr) (now : PyStr)
    (filename doc_name : PyStr) (st : SimplifierState) :
    Except ApiErr UploadOk × SimplifierState :=
  if filename = [] then (Except.error (400, ("No file selected").data), st)
  else if !(allowed_file filename) then
    (Except.error (400, ("Invalid file type. Use PDF, DOCX, or TXT").data), st)
  else
    let filepath := uploadFolder ++ filename
    let resolved := if doc_name = [] then filename else doc_name
    let out := load_document extract now filepath (some resolved) st
    if containsSub ("Error").data out.1 then
      (Except.error (500, out.1), out.2)
    else
      (Except.ok ⟨resolved, out.1.length⟩, out.2)

/-- Model of `/api/analyze`: 404 when the name is falsy or not loaded; otherwise run
simplify on the stored text and record it as the current analysis. -/
def api_analyze (gw : Gateway) (doc_name : Option PyStr) (st : SimplifierState) :
    Except ApiErr PyStr × SimplifierState :=
  if optFalsy doc_name || !(dictContains st.loaded_documents (doc_name.getD [])) then
    (Except.error (404, ("Document not found").data), st)
  else
    let document_text := ((dictGet st.loaded_documents (doc_name.getD [])).getD ⟨[], [], []⟩).text
    let analysis := simplify_legal_text gw document_text none
    (Except.ok analysis, { st with current_analysis := some analysis })

/-- Render one concern entry the way `/api/concerns` interpolates it into
`current_analysis`; `none` models the `KeyError`/`TypeError` the Python
f-string raises on an entry that is not a dict with the four string fields
(the only shapes the prompt requests). -/
def formatConcernItem (c : Json) : Option PyStr :=
  match c with
  | Json.obj fields =>
      let get := fun (k : String) =>
        (fields.find? (fun kv => kv.1 == k.data)).bind (fun kv =>
          match kv.2 with
          | Json.str s => some s
          | _ => none)
      match get ("severity"), get ("clause"), get ("concern"), get ("recommendation") with
      | some sv, some cl, some cn, some rc =>
          some (("[").data ++ sv ++ ("] ").data ++ cl ++ ("\nConcern: ").data ++ cn
            ++ ("\nRecommendation: ").data ++ rc ++ ("\n").data)
      | _, _, _, _ => none
  | _ => none

/-- Model of `/api/concerns`: 404 when the name is falsy or not loaded; otherwise run
the concerns task, store the joined rendering as the current analysis, and
return the parsed concerns; a rendering exception becomes a 500. -/
def api_get_concerns (gw : Gateway) (loads : JsonLoads) (doc_name : Option PyStr)
    (st : SimplifierState) : Except ApiErr Json × SimplifierState :=
  if optFalsy doc_name || !(dictContains st.loaded_documents (doc_name.getD [])) then
    (Except.error (404, ("Document not found").data), st)
  else
    let document_text := ((dictGet st.loaded_documents (doc_name.getD [])).getD ⟨[], [], []⟩).text
    let concerns := highlight_concerning_clauses gw loads document_text
    match concerns with
    | Json.arr items =>
        match items.mapM formatConcernItem with
        | some parts =>
            let rendered := ("CONCERNING CLAUSES ANALYSIS\n\n").data ++ List.intercalate ("\n").data parts
            (Except.ok concerns, { st with current_analysis := some rendered })
        | none => (Except.error (500, ("concern entry rendering failed").data), st)
    | _ => (Except.error (500, ("concern entry rendering failed").data), st)

/-- Model of `/api/compare`: 400 when a name is falsy; otherwise delegate to
`compare_documents` (whose not-found message is returned as a success
payload) and record the result as the current analysis. -/
def api_compare (gw : Gateway) (doc1 doc2 : Option PyStr) (st : SimplifierState) :
    Except ApiErr PyStr × SimplifierState :=
  if optFalsy doc1 || optFalsy doc2 then
    (Except.error (400, ("Two documents required").data), st)
  else
    let comparison := compare_documents gw (doc1.getD []) (doc2.getD []) st
    (Except.ok comparison, { st with current_analysis := some comparison })

/-- Model of `/api/chat`: a document name that is missing from the loaded set is
silently dropped (no 404) — the chat proceeds with no document context. -/
def api_chat (gw : Gateway) (message : PyStr) (doc_name : Option PyStr)
    (st : SimplifierState) : Except ApiErr PyStr × SimplifierState :=
  let document_context :=
    match doc_name with
    | some n =>
        if !n.isEmpty && dictContains st.loaded_documents n then
          some ((dictGet st.loaded_documents n).getD ⟨[], [], []⟩).text
        else none
    | none => none
  let out := chat gw message document_context st
  (Except.ok out.1, out.2)

/-- Model of `/api/clear`: reset the conversation transcript only. -/
def clear_conversation (st : SimplifierState) : SimplifierState :=
  { st with conversation_history := [] }

/-! ### String-primitive lemmas -/

/-- Boolean prefix test succeeds on a list followed by anything. -/
theorem isPrefixOf_append_self (l t : PyStr) : l.isPrefixOf (l ++ t) = true := by
  induction l with
  | nil => simp [List.isPrefixOf]
  | cons c cs ih => simp [List.isPrefixOf, ih]

/-- Boolean prefix test fails when the heads differ. -/
theorem isPrefixOf_cons_ne (p c : Char) (ps rest : PyStr) (h : c ≠ p) :
    (p :: ps).isPrefixOf (c :: rest) = false := by
  have hb : (p == c) = false := by
    simp [beq_eq_false_iff_ne]
    exact fun e => h e.symm
  simp [List.isPrefixOf, hb]

/-- A substring search skips past characters that differ from the pattern
head. -/
theorem containsSub_append_left (p : Char) (ps : PyStr) :
    ∀ (l tl : PyStr), (∀ c ∈ l, c ≠ p) →
      containsSub (p :: ps) (l ++ tl) = containsSub (p :: ps) tl := by
  intro l
  induction l with
  | nil => intro tl _; rfl
  | cons c cs ih =>
      intro tl h
      have hc : c ≠ p := h c (by simp)
      have h1 := isPrefixOf_cons_ne p c ps (cs ++ tl) hc
      calc containsSub (p :: ps) ((c :: cs) ++ tl)
          = ((p :: ps).isPrefixOf (c :: (cs ++ tl)) || containsSub (p :: ps) (cs ++ tl)) := rfl
        _ = containsSub (p :: ps) (cs ++ tl) := by rw [h1]; simp
        _ = containsSub (p :: ps) tl := ih tl (fun d hd => h d (by simp [hd]))

/-- No occurrence of the pattern in a string avoiding the pattern head. -/
theorem containsSub_false_of_head_ne (p : Char) (ps s : PyStr)
    (h : ∀ c ∈ s, c ≠ p) : containsSub (p :: ps) s = false := by
  have h2 := containsSub_append_left p ps s [] h
  rw [List.append_nil] at h2
  rw [h2]
  rfl

/-- Lemma: `pySplitAux` consumes pending separator characters one by one. -/
theorem pySplitAux_skip (p : Char) (ps : PyStr) :
    ∀ (ks s acc : PyStr), pySplitAux p ps (ks ++ s) ks.length acc = pySplitAux p ps s 0 acc := by
  intro ks
  induction ks with
  | nil => intro s acc; rfl
  | cons k ks ih => intro s acc; simpa [pySplitAux] using ih s acc

/-- Lemma: `pySplitAux` at a separator occurrence emits the accumulated segment. -/
theorem pySplitAux_match (p : Char) (ps suf acc : PyStr) :
    pySplitAux p ps ((p :: ps) ++ suf) 0 acc = acc.reverse :: pySplitAux p ps suf 0 [] := by
  have hpre : (p :: ps).isPrefixOf (p :: (ps ++ suf)) = true := isPrefixOf_append_self (p :: ps) suf
  calc pySplitAux p ps ((p :: ps) ++ suf) 0 acc
      = acc.reverse :: pySplitAux p ps (ps ++ suf) ps.length [] := by
        simp [pySplitAux, hpre]
    _ = acc.reverse :: pySplitAux p ps suf 0 [] := by rw [pySplitAux_skip]

/-- Lemma: `pySplitAux` on a string with no occurrence returns one segment. -/
theorem pySplitAux_no_occ (p : Char) (ps : PyStr) :
    ∀ (s acc : PyStr), containsSub (p :: ps) s = false →
      pySplitAux p ps s 0 acc = [acc.reverse ++ s] := by
  intro s
  induction s with
  | nil => intro acc _; simp [pySplitAux]
  | cons c rest ih =>
      intro acc h
      rw [containsSub] at h
      rcases Bool.or_eq_false_iff.mp h with ⟨h1, h2⟩
      calc pySplitAux p ps (c :: rest) 0 acc
          = pySplitAux p ps rest 0 (c :: acc) := by simp [pySplitAux, h1]
        _ = [(c :: acc).reverse ++ rest] := ih (c :: acc) h2
        _ = [acc.reverse ++ (c :: rest)] := by simp

/-- Lemma: `pySplitAux` walks through characters differing from the pattern head,
accumulating them. -/
theorem pySplitAux_walk (p : Char) (ps : PyStr) :
    ∀ (a s acc : PyStr), (∀ c ∈ a, c ≠ p) →
      pySplitAux p ps (a ++ s) 0 acc = pySplitAux p ps s 0 (a.reverse ++ acc) := by
  intro a
  induction a with
  | nil => intro s acc _; simp
  | cons c cs ih =>
      intro s acc h
      have hc : c ≠ p := h c (by simp)
      have h1 := isPrefixOf_cons_ne p c ps (cs ++ s) hc
      calc pySplitAux p ps ((c :: cs) ++ s) 0 acc
          = pySplitAux p ps (cs ++ s) 0 (c :: acc) := by simp [pySplitAux, h1]
        _ = pySplitAux p ps s 0 (cs.reverse ++ (c :: acc)) := ih s (c :: acc) (fun d hd => h d (by simp [hd]))
        _ = pySplitAux p ps s 0 ((c :: cs).reverse ++ acc) := by simp

/-- Stripping ignores a leading whitespace character. -/
theorem pyStrip_cons_ws (c : Char) (l : PyStr) (h : isPySpace c = true) :
    pyStrip (c :: l) = pyStrip l := by
  simp [pyStrip, List.dropWhile_cons, h]

/-- Stripping ignores a trailing whitespace character. -/
theorem pyStrip_concat_ws (l : PyStr) (c : Char) (h : isPySpace c = true) :
    pyStrip (l ++ [c]) = pyStrip l := by
  unfold pyStrip
  rw [List.dropWhile_append]
  by_cases hl : (l.dropWhile isPySpace).isEmpty
  · rw [List.isEmpty_iff] at hl
    simp [hl, List.dropWhile_cons, h]
  · rw [if_neg hl]
    have e2 : (l.dropWhile isPySpace ++ [c]).reverse = c :: (l.dropWhile isPySpace).reverse := by simp
    rw [e2, List.dropWhile_cons, h]
    simp

/-- Every character of the stripped string occurs in the original. -/
theorem mem_of_mem_pyStrip (l : PyStr) (c : Char) (h : c ∈ pyStrip l) : c ∈ l := by
  unfold pyStrip at h
  have h1 := List.mem_reverse.mp h
  have h2 := (List.dropWhile_sublist _).subset h1
  have h3 := List.mem_reverse.mp h2
  exact (List.dropWhile_sublist _).subset h3

/-- A string with non-whitespace first and last characters strips to
itself. -/
theorem pyStrip_no_ws (c d : Char) (l : PyStr)
    (hc : isPySpace c = false) (hd : isPySpace d = false) :
    pyStrip (c :: (l ++ [d])) = c :: (l ++ [d]) := by
  unfold pyStrip
  have e1 : List.dropWhile isPySpace (c :: (l ++ [d])) = c :: (l ++ [d]) := by
    simp [List.dropWhile_cons, hc]
  have e2 : (c :: (l ++ [d])).reverse = d :: (l.reverse ++ [c]) := by simp
  have e3 : List.dropWhile isPySpace (d :: (l.reverse ++ [c])) = d :: (l.reverse ++ [c]) := by
    simp [List.dropWhile_cons, hd]
  rw [e1, e2, e3, ← e2, List.reverse_reverse]

/-! ### JSON-region extraction lemmas (concerns interpreter) -/

/-- The json-labelled fenced wrapping of a body, as in the spec example. -/
def wrapJson (body : PyStr) : PyStr := fenceJson ++ ('\n' :: (body ++ ('\n' :: fence)))

/-- The json fence in head-and-tail form. -/
theorem fenceJson_eq : fenceJson = tick :: [tick, tick, 'j', 's', 'o', 'n'] := rfl

/-- The generic fence in head-and-tail form. -/
theorem fence_eq : fence = tick :: [tick, tick] := rfl

/-- A string with a prefix occurrence contains the pattern. -/
theorem containsSub_of_isPrefixOf (pat s : PyStr) (h : pat.isPrefixOf s = true) :
    containsSub pat s = true := by
  cases s with
  | nil =>
      cases pat with
      | nil => rfl
      | cons p ps => simp [List.isPrefixOf] at h
  | cons c rest =>
      have e : containsSub pat (c :: rest) = (pat.isPrefixOf (c :: rest) || containsSub pat rest) := rfl
      rw [e, h]
      rfl

/-- A boolean prefix relation restricted to a prefix of the pattern. -/
theorem isPrefixOf_of_append_isPrefixOf (b : PyStr) :
    ∀ (a l : PyStr), (a ++ b).isPrefixOf l = true → a.isPrefixOf l = true := by
  intro a
  induction a with
  | nil => intro l _; simp [List.isPrefixOf]
  | cons x xs ih =>
      intro l h
      cases l with
      | nil => simp [List.isPrefixOf] at h
      | cons y ys =>
          simp only [List.cons_append, List.isPrefixOf] at h ⊢
          simp only [Bool.and_eq_true] at h
          rcases h with ⟨h1, h2⟩
          rw [h1, ih ys h2]
          rfl

/-- If a pattern does not occur, no extension of it occurs. -/
theorem containsSub_extend_false (a b : PyStr) :
    ∀ (s : PyStr), containsSub a s = false → containsSub (a ++ b) s = false := by
  intro s
  induction s with
  | nil =>
      intro h
      rw [containsSub] at h ⊢
      cases a with
      | nil => simp at h
      | cons x xs => simp
  | cons c rest ih =>
      intro h
      rw [containsSub] at h ⊢
      rcases Bool.or_eq_false_iff.mp h with ⟨h1, h2⟩
      have h3 : (a ++ b).isPrefixOf (c :: rest) = false := by
        cases hab : (a ++ b).isPrefixOf (c :: rest) with
        | false => rfl
        | true => rw [isPrefixOf_of_append_isPrefixOf b a _ hab] at h1; exact h1
      rw [h3, ih h2]
      rfl

/-- The tail following the opening json fence contains no further fence. -/
theorem containsSub_fenceJson_tail (body : PyStr) (h : ∀ c ∈ body, c ≠ tick) :
    containsSub fenceJson ('\n' :: (body ++ ('\n' :: fence))) = false := by
  rw [fenceJson_eq]
  have hshape : '\n' :: (body ++ ('\n' :: fence)) = ('\n' :: body) ++ ('\n' :: fence) := by simp
  rw [hshape]
  rw [containsSub_append_left tick _ ('\n' :: body) ('\n' :: fence) ?hall]
  · decide
  case hall =>
    intro c hc
    rcases List.mem_cons.mp hc with h1 | h1
    · rw [h1]; decide
    · exact h c h1

/-- A tick-free string contains no fence of either kind. -/
theorem containsSub_fence_false (body : PyStr) (h : ∀ c ∈ body, c ≠ tick) :
    containsSub fence body = false := by
  rw [fence_eq]
  exact containsSub_false_of_head_ne tick _ body h

/-- A tick-free string contains no json fence. -/
theorem containsSub_fenceJson_false (body : PyStr) (h : ∀ c ∈ body, c ≠ tick) :
    containsSub fenceJson body = false := by
  rw [fenceJson_eq]
  exact containsSub_false_of_head_ne tick _ body h

/-- Splitting the wrapped body on the json fence: empty first segment, then
the whole remainder (no second occurrence). -/
theorem pySplit_fenceJson_wrap (body : PyStr) (h : ∀ c ∈ body, c ≠ tick) :
    pySplit fenceJson (wrapJson body) = [[], '\n' :: (body ++ ('\n' :: fence))] := by
  have e1 : pySplit fenceJson (wrapJson body)
      = pySplitAux tick [tick, tick, 'j', 's', 'o', 'n'] (wrapJson body) 0 [] := rfl
  have e2 : wrapJson body
      = (tick :: [tick, tick, 'j', 's', 'o', 'n']) ++ ('\n' :: (body ++ ('\n' :: fence))) := rfl
  rw [e1, e2, pySplitAux_match]
  have h3 := containsSub_fenceJson_tail body h
  rw [fenceJson_eq] at h3
  rw [pySplitAux_no_occ tick _ _ [] h3]
  simp

/-- Splitting the remainder on the generic fence: the fenced interior, then
the empty trailing segment. -/
theorem pySplit_fence_tail (body : PyStr) (h : ∀ c ∈ body, c ≠ tick) :
    pySplit fence ('\n' :: (body ++ ('\n' :: fence)))
      = ['\n' :: (body ++ ['\n']), []] := by
  have e1 : pySplit fence ('\n' :: (body ++ ('\n' :: fence)))
      = pySplitAux tick [tick, tick] ('\n' :: (body ++ ('\n' :: fence))) 0 [] := rfl
  have e2 : '\n' :: (body ++ ('\n' :: fence))
      = (('\n' :: (body ++ ['\n'])) ++ ((tick :: [tick, tick]) ++ [])) := by
    rw [fence_eq]
    simp
  rw [e1, e2]
  rw [pySplitAux_walk tick [tick, tick] ('\n' :: (body ++ ['\n'])) _ [] ?hall]
  · rw [pySplitAux_match]
    simp [pySplitAux]
  case hall =>
    intro c hc
    rcases List.mem_cons.mp hc with h1 | h1
    · rw [h1]; decide
    · rcases List.mem_append.mp h1 with h2 | h2
      · exact h c h2
      · rcases List.mem_singleton.mp h2 with h3
        rw [h3]; decide

/-- The region selected from the wrapped body is the stripped body. -/
theorem extractJsonRegion_wrapJson (body : PyStr) (h : ∀ c ∈ body, c ≠ tick) :
    extractJsonRegion (wrapJson body) = pyStrip body := by
  have e : wrapJson body
      = tick :: (([tick, tick, 'j', 's', 'o', 'n'] ++ ('\n' :: (body ++ ['\n', tick, tick]))) ++ [tick]) := by
    have e0 : wrapJson body
        = (tick :: [tick, tick, 'j', 's', 'o', 'n']) ++ ('\n' :: (body ++ ('\n' :: (tick :: [tick, tick])))) := rfl
    rw [e0]
    simp
  have hstrip : pyStrip (wrapJson body) = wrapJson body := by
    rw [e]
    exact pyStrip_no_ws tick tick _ (by decide) (by decide)
  have hcont : containsSub fenceJson (wrapJson body) = true := by
    have e2 : wrapJson body = fenceJson ++ ('\n' :: (body ++ ('\n' :: fence))) := rfl
    rw [e2]
    exact containsSub_of_isPrefixOf _ _ (isPrefixOf_append_self _ _)
  simp only [extractJsonRegion]
  rw [hstrip, if_pos hcont]
  rw [pySplit_fenceJson_wrap body h]
  have g1 : (([[], '\n' :: (body ++ ('\n' :: fence))] : List PyStr).getD 1 [])
      = '\n' :: (body ++ ('\n' :: fence)) := rfl
  rw [g1, pySplit_fence_tail body h]
  have g2 : ((['\n' :: (body ++ ['\n']), []] : List PyStr).getD 0 [])
      = '\n' :: (body ++ ['\n']) := rfl
  rw [g2, pyStrip_cons_ws _ _ (by decide), pyStrip_concat_ws _ _ (by decide)]

/-- The region selected from a tick-free raw text is the stripped text. -/
theorem extractJsonRegion_bare (body : PyStr) (h : ∀ c ∈ body, c ≠ tick) :
    extractJsonRegion body = pyStrip body := by
  have hsub : ∀ c ∈ pyStrip body, c ≠ tick := fun c hc => h c (mem_of_mem_pyStrip body c hc)
  simp only [extractJsonRegion]
  rw [containsSub_fenceJson_false _ hsub, containsSub_fence_false _ hsub]
  simp

/-! ### Small helper lemmas for the claim theorems -/

/-- Truncation is idempotent. -/
theorem pySlice_idem (n : Nat) (t : PyStr) : pySlice n (pySlice n t) = pySlice n t := by
  simp [pySlice, List.take_take]

/-- Truncating a string longer than the budget yields exactly the budget. -/
theorem pySlice_length_of_lt (n : Nat) (t : PyStr) (h : n < t.length) :
    (pySlice n t).length = n := by
  simp [pySlice, List.length_take]
  omega

/-- Truncation preserves (non-)emptiness for a positive budget. -/
theorem pySlice_isEmpty (n : Nat) (t : PyStr) (h : 0 < n) :
    (pySlice n t).isEmpty = t.isEmpty := by
  cases t with
  | nil => simp [pySlice]
  | cons c rest =>
      cases n with
      | zero => omega
      | succ m => simp [pySlice]

/-- Updating a key and reading it back yields the new entry. -/
theorem dictGet_set_self (d : List (PyStr × DocEntry)) (k : PyStr) (v : DocEntry) :
    dictGet (dictSet d k v) k = some v := by
  induction d with
  | nil => simp [dictSet, dictGet, List.find?]
  | cons kv rest ih =>
      rcases kv with ⟨k', v'⟩
      by_cases hk : k' = k
      · simp [dictSet, dictGet, hk, List.find?]
      · have hb : (k' == k) = false := by
          simp [beq_eq_false_iff_ne]
          exact hk
        simp only [dictSet, if_neg hk]
        simp only [dictGet, List.find?, hb] at ih ⊢
        exact ih

/-! ### Claim theorems -/

/-- Claim C1 counterexample: with no documents loaded, a chat request naming
the missing document "missing" does not fail with a not-found error — it
returns the model reply as a success and records both turns, so the model
was called despite the unknown document name. -/
theorem claim_C1_counterexample :
    (api_chat (fun _ => Except.ok ("reply").data) ("hello").data
        (some ("missing").data) emptyState).1 = Except.ok ("reply").data
    ∧ (api_chat (fun _ => Except.ok ("reply").data) ("hello").data
        (some ("missing").data) emptyState).2.conversation_history
      = [⟨Role.user, ("hello").data⟩, ⟨Role.assistant, ("reply").data⟩] :=
  ⟨rfl, rfl⟩

/-- Claim C1 (amended): analyze and concerns fail with 404 "Document not
found" on an unknown name, leaving the state unchanged and independent of
the gateway (so no model call); compare returns its not-found message
without calling the model; chat does not fail — an unknown name behaves
exactly like supplying no name at all. -/
theorem claim_C1_not_found_amended (gw : Gateway) (loads : JsonLoads)
    (name other m : PyStr) (st : SimplifierState)
    (h : dictContains st.loaded_documents name = false) :
    api_analyze gw (some name) st = (Except.error (404, ("Document not found").data), st)
    ∧ api_get_concerns gw loads (some name) st
        = (Except.error (404, ("Document not found").data), st)
    ∧ compare_documents gw name other st = compareNotFoundMsg
    ∧ compare_documents gw other name st = compareNotFoundMsg
    ∧ api_chat gw m (some name) st = api_chat gw m none st := by
  refine ⟨?_, ?_, ?_, ?_, ?_⟩
  · simp [api_analyze, h]
  · simp [api_get_concerns, h]
  · simp [compare_documents, h]
  · simp [compare_documents, h]
  · simp [api_chat, h]

/-- Witness for C1 (amended) at a concrete empty document set. -/
theorem claim_C1_not_found_amended_witness :
    api_analyze (fun _ => Except.ok ("a").data) (some ("x").data) emptyState
        = (Except.error (404, ("Document not found").data), emptyState)
    ∧ api_get_concerns (fun _ => Except.ok ("a").data) (fun _ => none) (some ("x").data) emptyState
        = (Except.error (404, ("Document not found").data), emptyState)
    ∧ compare_documents (fun _ => Except.ok ("a").data) ("x").data ("y").data emptyState
        = compareNotFoundMsg
    ∧ compare_documents (fun _ => Except.ok ("a").data) ("y").data ("x").data emptyState
        = compareNotFoundMsg
    ∧ api_chat (fun _ => Except.ok ("a").data) ("m").data (some ("x").data) emptyState
        = api_chat (fun _ => Except.ok ("a").data) ("m").data none emptyState :=
  claim_C1_not_found_amended (fun _ => Except.ok ("a").data) (fun _ => none)
    ("x").data ("y").data ("m").data emptyState (by decide)

/-- Claim C3 counterexample: a PDF load whose extraction raises still
stores an entry — the text stored is the reader error string, so the
document set is not left unchanged. -/
theorem claim_C3_counterexample :
    (load_document (Except.error ("boom").data) ("ts").data ("doc.pdf").data
        (some ("d").data) emptyState).2.loaded_documents
      = [(("d").data, ⟨("Error reading PDF: boom").data, ("doc.pdf").data, ("ts").data⟩)]
    ∧ (load_document (Except.error ("boom").data) ("ts").data ("doc.pdf").data
        (some ("d").data) emptyState).1 = ("Error reading PDF: boom").data := by
  exact ⟨by decide, by decide⟩

/-- Claim C3 (amended): for a supported extension `load_document` always
stores an entry under the given name — also when extraction failed, in
which case the stored text is the reader error string; only an
unsupported extension leaves the document set unchanged. -/
theorem claim_C3_load_store_amended (extract : Except PyStr PyStr)
    (now path name : PyStr) (st : SimplifierState) (hname : name ≠ []) :
    (extensionOf path = ("pdf").data →
        load_document extract now path (some name) st
          = (read_pdf extract, { st with loaded_documents := dictSet st.loaded_documents name ⟨read_pdf extract, path, now⟩ }))
    ∧ (extensionOf path = ("docx").data →
        load_document extract now path (some name) st
          = (read_docx extract, { st with loaded_documents := dictSet st.loaded_documents name ⟨read_docx extract, path, now⟩ }))
    ∧ (extensionOf path = ("txt").data →
        load_document extract now path (some name) st
          = (read_txt extract, { st with loaded_documents := dictSet st.loaded_documents name ⟨read_txt extract, path, now⟩ }))
    ∧ (extensionOf path ≠ ("pdf").data → extensionOf path ≠ ("docx").data →
        extensionOf path ≠ ("txt").data →
        load_document extract now path (some name) st = (unsupportedMsg, st)) := by
  refine ⟨fun hext => ?_, fun hext => ?_, fun hext => ?_, fun h1 h2 h3 => ?_⟩
  · simp [load_document, hext, hname]
  · have hne : extensionOf path ≠ ("pdf").data := by rw [hext]; decide
    simp [load_document, hext, hne, hname]
  · have hne1 : extensionOf path ≠ ("pdf").data := by rw [hext]; decide
    have hne2 : extensionOf path ≠ ("docx").data := by rw [hext]; decide
    simp [load_document, hext, hne1, hne2, hname]
  · simp [load_document, h1, h2, h3]

/-- Witness for C3 (amended) at a concrete failing PDF load. -/
theorem claim_C3_load_store_amended_witness :
    load_document (Except.error ("boom").data) ("ts").data ("doc.pdf").data
        (some ("d").data) emptyState
      = (read_pdf (Except.error ("boom").data), { emptyState with loaded_documents := dictSet emptyState.loaded_documents ("d").data ⟨read_pdf (Except.error ("boom").data), ("doc.pdf").data, ("ts").data⟩ }) :=
  (claim_C3_load_store_amended (Except.error ("boom").data) ("ts").data
      ("doc.pdf").data ("d").data emptyState (by decide)).1 (by decide)

/-- Claim C4 counterexample: a gateway failure inside the concerns task is
not converted into a descriptive error message for the caller — the caller
receives the empty list, the very value a successful call returning the
JSON text "[]" also produces, so the upstream message "boom" is lost. -/
theorem claim_C4_counterexample :
    highlight_concerning_clauses (fun _ => Except.error ("boom").data)
        (fun _ => none) ("text").data = Json.arr []
    ∧ highlight_concerning_clauses (fun _ => Except.ok ("[]").data)
        (fun s => if s = ("[]").data then some (Json.arr []) else none) ("text").data
      = Json.arr [] := by
  constructor
  · rfl
  · have he : extractJsonRegion (("[]").data) = ("[]").data := by decide
    simp [highlight_concerning_clauses, interpretModelJson, he]

/-- Claim C4 (amended): a transport or API failure of the model call never
escapes a task: simplify, compare and chat convert it into a descriptive
error string carrying the upstream message, while concerns catches it and
returns the empty list (the message is only logged, not returned). -/
theorem claim_C4_gateway_failure_amended (gw : Gateway) (loads : JsonLoads)
    (e t m n1 n2 t1 t2 p1 p2 ts1 ts2 : PyStr) (qo ctx : Option PyStr)
    (hist : List Message) (ca : Option PyStr) (st : SimplifierState)
    (hgw : ∀ r, gw r = Except.error e) (hne : n1 ≠ n2) :
    simplify_legal_text gw t qo = ("Error calling API: ").data ++ e
    ∧ highlight_concerning_clauses gw loads t = Json.arr []
    ∧ compare_documents gw n1 n2 ⟨hist, [(n1, ⟨t1, p1, ts1⟩), (n2, ⟨t2, p2, ts2⟩)], ca⟩
        = ("Error comparing documents: ").data ++ e
    ∧ (chat gw m ctx st).1 = ("Error: ").data ++ e := by
  have hb : (n1 == n2) = false := by
    simp [beq_eq_false_iff_ne]
    exact hne
  refine ⟨?_, ?_, ?_, ?_⟩
  · simp [simplify_legal_text, hgw]
  · simp [highlight_concerning_clauses, hgw]
  · simp [compare_documents, dictContains, dictGet, List.find?, hb, hgw]
  · simp [chat, hgw]

/-- Witness for C4 (amended) at a concrete always-failing gateway. -/
theorem claim_C4_gateway_failure_amended_witness :
    simplify_legal_text (fun _ => Except.error ("boom").data) ("t").data none
        = ("Error calling API: ").data ++ ("boom").data
    ∧ highlight_concerning_clauses (fun _ => Except.error ("boom").data) (fun _ => none) ("t").data
        = Json.arr []
    ∧ compare_documents (fun _ => Except.error ("boom").data) ("a").data ("b").data
        ⟨[], [(("a").data, ⟨("x").data, ("p").data, ("ts").data⟩), (("b").data, ⟨("y").data, ("q").data, ("ts").data⟩)], none⟩
        = ("Error comparing documents: ").data ++ ("boom").data
    ∧ (chat (fun _ => Except.error ("boom").data) ("m").data none emptyState).1
        = ("Error: ").data ++ ("boom").data :=
  claim_C4_gateway_failure_amended (fun _ => Except.error ("boom").data) (fun _ => none)
    ("boom").data ("t").data ("m").data ("a").data ("b").data ("x").data ("y").data
    ("p").data ("q").data ("ts").data ("ts").data none none [] none emptyState
    (fun _ => rfl) (by decide)

/-- Claim C6 counterexample: a model reply carrying leading and trailing
whitespace is returned verbatim by simplify and chat, and that value
differs from its whitespace-trimmed form — the claimed trimming never
happens. -/
theorem claim_C6_counterexample :
    simplify_legal_text (fun _ => Except.ok ("  hi  ").data) ("t").data none = ("  hi  ").data
    ∧ (chat (fun _ => Except.ok ("  hi  ").data) ("m").data none emptyState).1 = ("  hi  ").data
    ∧ pyStrip ("  hi  ").data ≠ ("  hi  ").data :=
  ⟨rfl, rfl, by decide⟩

/-- Claim C6 (amended): on a successful model call, simplify, compare and
chat return the model output completely unchanged — in particular no
leading/trailing whitespace is removed. -/
theorem claim_C6_passthrough_amended (gw : Gateway)
    (content t m n1 n2 t1 t2 p1 p2 ts1 ts2 : PyStr) (qo ctx : Option PyStr)
    (hist : List Message) (ca : Option PyStr) (st : SimplifierState)
    (hgw : ∀ r, gw r = Except.ok content) (hne : n1 ≠ n2) :
    simplify_legal_text gw t qo = content
    ∧ compare_documents gw n1 n2 ⟨hist, [(n1, ⟨t1, p1, ts1⟩), (n2, ⟨t2, p2, ts2⟩)], ca⟩ = content
    ∧ (chat gw m ctx st).1 = content := by
  have hb : (n1 == n2) = false := by
    simp [beq_eq_false_iff_ne]
    exact hne
  refine ⟨?_, ?_, ?_⟩
  · simp [simplify_legal_text, hgw]
  · simp [compare_documents, dictContains, dictGet, List.find?, hb, hgw]
  · simp [chat, hgw]

/-- Witness for C6 (amended) at a concrete whitespace-carrying reply. -/
theorem claim_C6_passthrough_amended_witness :
    simplify_legal_text (fun _ => Except.ok ("  hi  ").data) ("t").data none = ("  hi  ").data
    ∧ compare_documents (fun _ => Except.ok ("  hi  ").data) ("a").data ("b").data
        ⟨[], [(("a").data, ⟨("x").data, ("p").data, ("ts").data⟩), (("b").data, ⟨("y").data, ("q").data, ("ts").data⟩)], none⟩
        = ("  hi  ").data
    ∧ (chat (fun _ => Except.ok ("  hi  ").data) ("m").data none emptyState).1 = ("  hi  ").data :=
  claim_C6_passthrough_amended (fun _ => Except.ok ("  hi  ").data)
    ("  hi  ").data ("t").data ("m").data ("a").data ("b").data ("x").data ("y").data
    ("p").data ("q").data ("ts").data ("ts").data none none [] none emptyState
    (fun _ => rfl) (by decide)

/-- Claim C7: every model call uses the fixed identifier
"llama-3.3-70b-versatile"; the temperature is 0.5 for concerns and 0.7 for
simplify, compare and chat; the max-token ceiling is 2000 for concerns,
1500 for simplify, 2000 for compare and 1000 for chat. -/
theorem claim_C7_model_parameters (t d1n d1t d2n d2t : PyStr) (qo : Option PyStr)
    (hist : List Message) :
    ((concernsRequest t).model = modelId ∧ (concernsRequest t).temperature = 0.5
      ∧ (concernsRequest t).max_tokens = 2000)
    ∧ ((simplifyRequest t qo).model = modelId ∧ (simplifyRequest t qo).temperature = 0.7
      ∧ (simplifyRequest t qo).max_tokens = 1500)
    ∧ ((compareRequest d1n d1t d2n d2t).model = modelId
      ∧ (compareRequest d1n d1t d2n d2t).temperature = 0.7
      ∧ (compareRequest d1n d1t d2n d2t).max_tokens = 2000)
    ∧ ((chatRequest hist).model = modelId ∧ (chatRequest hist).temperature = 0.7
      ∧ (chatRequest hist).max_tokens = 1000) :=
  ⟨⟨rfl, rfl, rfl⟩, ⟨rfl, rfl, rfl⟩, ⟨rfl, rfl, rfl⟩, ⟨rfl, rfl, rfl⟩⟩

/-- Claim C5: every prompt builder truncates its primary input to its fixed
budget (3000 for simplify with or without query, 4000 for concerns, 3000
for each compare document, 2000 for chat context): each task behaves
identically on an input and on its budget-length truncation, and an input
longer than the budget embeds exactly budget-many characters. -/
theorem claim_C5_prompt_truncation (gw : Gateway) (loads : JsonLoads)
    (t m d n1 n2 t1 t2 p1 p2 ts1 ts2 : PyStr) (qo : Option PyStr)
    (hist : List Message) (ca : Option PyStr) (st : SimplifierState) :
    simplify_legal_text gw t qo = simplify_legal_text gw (pySlice 3000 t) qo
    ∧ highlight_concerning_clauses gw loads t
        = highlight_concerning_clauses gw loads (pySlice 4000 t)
    ∧ chat gw m (some d) st = chat gw m (some (pySlice 2000 d)) st
    ∧ (n1 ≠ n2 →
        compare_documents gw n1 n2 ⟨hist, [(n1, ⟨t1, p1, ts1⟩), (n2, ⟨t2, p2, ts2⟩)], ca⟩
          = compare_documents gw n1 n2
              ⟨hist, [(n1, ⟨pySlice 3000 t1, p1, ts1⟩), (n2, ⟨pySlice 3000 t2, p2, ts2⟩)], ca⟩)
    ∧ (3000 < t.length → (pySlice 3000 t).length = 3000)
    ∧ (4000 < t.length → (pySlice 4000 t).length = 4000)
    ∧ (2000 < d.length → (pySlice 2000 d).length = 2000) := by
  refine ⟨?_, ?_, ?_, fun hne => ?_,
    fun h => pySlice_length_of_lt _ _ h, fun h => pySlice_length_of_lt _ _ h,
    fun h => pySlice_length_of_lt _ _ h⟩
  · have hp : simplifyPlainPrompt (pySlice 3000 t) = simplifyPlainPrompt t := by
      unfold simplifyPlainPrompt
      rw [pySlice_idem]
    have hqp : ∀ q, simplifyQueryPrompt (pySlice 3000 t) q = simplifyQueryPrompt t q := by
      intro q
      unfold simplifyQueryPrompt
      rw [pySlice_idem]
    have hr : simplifyRequest (pySlice 3000 t) qo = simplifyRequest t qo := by
      cases qo with
      | none => simp only [simplifyRequest, hp]
      | some q => simp only [simplifyRequest, hp, hqp]
    simp only [simplify_legal_text]
    rw [hr]
  · have hc : concernsPrompt (pySlice 4000 t) = concernsPrompt t := by
      unfold concernsPrompt
      rw [pySlice_idem]
    have hr : concernsRequest (pySlice 4000 t) = concernsRequest t := by
      simp only [concernsRequest, hc]
    simp only [highlight_concerning_clauses]
    rw [hr]
  · have hcp : contextPrompt (some (pySlice 2000 d)) m = contextPrompt (some d) m := by
      simp only [contextPrompt]
      rw [pySlice_isEmpty 2000 d (by norm_num), pySlice_idem]
    simp only [chat]
    rw [hcp]
  · have hb : (n1 == n2) = false := by
      simp [beq_eq_false_iff_ne]
      exact hne
    simp [compare_documents, dictContains, dictGet, List.find?, hb, pySlice_idem]

/-- Witness for C5 at inputs of lengths 4001 and 2001. -/
theorem claim_C5_prompt_truncation_witness :
    simplify_legal_text (fun _ => Except.ok ("ok").data) (List.replicate 4001 'a') none
        = simplify_legal_text (fun _ => Except.ok ("ok").data)
            (pySlice 3000 (List.replicate 4001 'a')) none
    ∧ compare_documents (fun _ => Except.ok ("ok").data) ("a").data ("b").data
        ⟨[], [(("a").data, ⟨List.replicate 4001 'a', ("p").data, ("ts").data⟩), (("b").data, ⟨("y").data, ("q").data, ("ts").data⟩)], none⟩
        = compare_documents (fun _ => Except.ok ("ok").data) ("a").data ("b").data
            ⟨[], [(("a").data, ⟨pySlice 3000 (List.replicate 4001 'a'), ("p").data, ("ts").data⟩), (("b").data, ⟨pySlice 3000 ("y").data, ("q").data, ("ts").data⟩)], none⟩
    ∧ (pySlice 3000 (List.replicate 4001 'a')).length = 3000
    ∧ (pySlice 4000 (List.replicate 4001 'a')).length = 4000
    ∧ (pySlice 2000 (List.replicate 2001 'b')).length = 2000 := by
  have h := claim_C5_prompt_truncation (fun _ => Except.ok ("ok").data) (fun _ => none)
    (List.replicate 4001 'a') ("m").data (List.replicate 2001 'b')
    ("a").data ("b").data (List.replicate 4001 'a') ("y").data
    ("p").data ("q").data ("ts").data ("ts").data none [] none emptyState
  refine ⟨h.1, h.2.2.2.1 (by decide), ?_, ?_, ?_⟩
  · exact h.2.2.2.2.1 (by rw [List.length_replicate]; norm_num)
  · exact h.2.2.2.2.2.1 (by rw [List.length_replicate]; norm_num)
  · exact h.2.2.2.2.2.2 (by rw [List.length_replicate]; norm_num)

/-- Claim C8: starting from an empty history, two successful chat calls
leave the transcript user, assistant, user, assistant in call order, and
clearing the conversation resets it to length 0. -/
theorem claim_C8_chat_continuity (gw : Gateway) (m1 m2 a1 a2 : PyStr)
    (ctx1 ctx2 : Option PyStr) (st st2 : SimplifierState)
    (h0 : st.conversation_history = [])
    (h1 : gw (chatRequest [⟨Role.user, contextPrompt ctx1 m1⟩]) = Except.ok a1)
    (h2 : gw (chatRequest [⟨Role.user, contextPrompt ctx1 m1⟩, ⟨Role.assistant, a1⟩,
        ⟨Role.user, contextPrompt ctx2 m2⟩]) = Except.ok a2) :
    (chat gw m2 ctx2 (chat gw m1 ctx1 st).2).2.conversation_history
      = [⟨Role.user, contextPrompt ctx1 m1⟩, ⟨Role.assistant, a1⟩,
         ⟨Role.user, contextPrompt ctx2 m2⟩, ⟨Role.assistant, a2⟩]
    ∧ (chat gw m1 ctx1 st).1 = a1
    ∧ (chat gw m2 ctx2 (chat gw m1 ctx1 st).2).1 = a2
    ∧ (clear_conversation st2).conversation_history.length = 0 := by
  have e1 : chat gw m1 ctx1 st
      = (a1, { st with conversation_history := [⟨Role.user, contextPrompt ctx1 m1⟩, ⟨Role.assistant, a1⟩] }) := by
    simp [chat, h0, h1]
  have e2 : chat gw m2 ctx2 (chat gw m1 ctx1 st).2
      = (a2, { st with conversation_history := [⟨Role.user, contextPrompt ctx1 m1⟩, ⟨Role.assistant, a1⟩, ⟨Role.user, contextPrompt ctx2 m2⟩, ⟨Role.assistant, a2⟩] }) := by
    rw [e1]
    simp [chat, h2]
  refine ⟨by rw [e2], by rw [e1], by rw [e2], by simp [clear_conversation]⟩

/-- Witness for C8 at a concrete always-succeeding gateway. -/
theorem claim_C8_chat_continuity_witness :
    (chat (fun _ => Except.ok ("hi").data) ("two").data none
        (chat (fun _ => Except.ok ("hi").data) ("one").data none emptyState).2).2.conversation_history
      = [⟨Role.user, contextPrompt none ("one").data⟩, ⟨Role.assistant, ("hi").data⟩,
         ⟨Role.user, contextPrompt none ("two").data⟩, ⟨Role.assistant, ("hi").data⟩]
    ∧ (chat (fun _ => Except.ok ("hi").data) ("one").data none emptyState).1 = ("hi").data
    ∧ (chat (fun _ => Except.ok ("hi").data) ("two").data none
        (chat (fun _ => Except.ok ("hi").data) ("one").data none emptyState).2).1 = ("hi").data
    ∧ (clear_conversation emptyState).conversation_history.length = 0 :=
  claim_C8_chat_continuity (fun _ => Except.ok ("hi").data) ("one").data ("two").data
    ("hi").data ("hi").data none none emptyState emptyState rfl rfl rfl

/-- Claim C9: when the model call inside chat fails, the user turn has
already been appended and no assistant turn is added: the transcript grows
by exactly one turn, ends with a user turn, and the returned error string
is not recorded; the other state fields are untouched. -/
theorem claim_C9_chat_failure_transcript (gw : Gateway) (m e : PyStr)
    (ctx : Option PyStr) (st : SimplifierState)
    (h : gw (chatRequest (st.conversation_history ++ [⟨Role.user, contextPrompt ctx m⟩]))
        = Except.error e) :
    (chat gw m ctx st).2.conversation_history
      = st.conversation_history ++ [⟨Role.user, contextPrompt ctx m⟩]
    ∧ (chat gw m ctx st).1 = ("Error: ").data ++ e
    ∧ (chat gw m ctx st).2.conversation_history.length = st.conversation_history.length + 1
    ∧ ((chat gw m ctx st).2.conversation_history.getLast?).map Message.role = some Role.user
    ∧ (chat gw m ctx st).2.loaded_documents = st.loaded_documents
    ∧ (chat gw m ctx st).2.current_analysis = st.current_analysis := by
  have e1 : chat gw m ctx st
      = (("Error: ").data ++ e, { st with conversation_history := st.conversation_history ++ [⟨Role.user, contextPrompt ctx m⟩] }) := by
    simp [chat, h]
  rw [e1]
  refine ⟨rfl, rfl, by simp, by simp, rfl, rfl⟩

/-- Witness for C9 at a concrete always-failing gateway. -/
theorem claim_C9_chat_failure_transcript_witness :
    (chat (fun _ => Except.error ("down").data) ("q").data none emptyState).2.conversation_history
      = emptyState.conversation_history ++ [⟨Role.user, contextPrompt none ("q").data⟩]
    ∧ (chat (fun _ => Except.error ("down").data) ("q").data none emptyState).1
        = ("Error: ").data ++ ("down").data
    ∧ (chat (fun _ => Except.error ("down").data) ("q").data none emptyState).2.conversation_history.length
        = emptyState.conversation_history.length + 1
    ∧ ((chat (fun _ => Except.error ("down").data) ("q").data none emptyState).2.conversation_history.getLast?).map Message.role
        = some Role.user
    ∧ (chat (fun _ => Except.error ("down").data) ("q").data none emptyState).2.loaded_documents
        = emptyState.loaded_documents
    ∧ (chat (fun _ => Except.error ("down").data) ("q").data none emptyState).2.current_analysis
        = emptyState.current_analysis :=
  claim_C9_chat_failure_transcript (fun _ => Except.error ("down").data) ("q").data
    ("down").data none emptyState rfl

/-- Claim C10: for a validated upload (here the filename "contract.txt"),
the endpoint reports failure exactly when the substring "Error" occurs in
the text `load_document` returned — and in both cases the document has
already been stored in the document set under the given name. -/
theorem claim_C10_upload_error_substring (extract : Except PyStr PyStr)
    (now dn : PyStr) (st : SimplifierState) (hdn : dn ≠ []) :
    (containsSub ("Error").data (read_txt extract) = true →
        (upload_document extract now ("contract.txt").data dn st).1
            = Except.error (500, read_txt extract)
        ∧ dictGet (upload_document extract now ("contract.txt").data dn st).2.loaded_documents dn
            = some ⟨read_txt extract, uploadFolder ++ ("contract.txt").data, now⟩)
    ∧ (containsSub ("Error").data (read_txt extract) = false →
        (upload_document extract now ("contract.txt").data dn st).1
            = Except.ok ⟨dn, (read_txt extract).length⟩
        ∧ dictGet (upload_document extract now ("contract.txt").data dn st).2.loaded_documents dn
            = some ⟨read_txt extract, uploadFolder ++ ("contract.txt").data, now⟩) := by
  have hfn : ¬((("contract.txt").data : PyStr) = []) := by decide
  have hallow : allowed_file ("contract.txt").data = true := by decide
  have hpdf : ¬(extensionOf (uploadFolder ++ ("contract.txt").data) = ("pdf").data) := by decide
  have hdocx : ¬(extensionOf (uploadFolder ++ ("contract.txt").data) = ("docx").data) := by decide
  have htxt : extensionOf (uploadFolder ++ ("contract.txt").data) = ("txt").data := by decide
  have hload : load_document extract now (uploadFolder ++ ("contract.txt").data) (some dn) st
      = (read_txt extract, { st with loaded_documents := dictSet st.loaded_documents dn ⟨read_txt extract, uploadFolder ++ ("contract.txt").data, now⟩ }) := by
    simp [load_document, hpdf, hdocx, htxt, hdn]
  refine ⟨fun hc => ?_, fun hc => ?_⟩
  · have hu : (upload_document extract now ("contract.txt").data dn st)
        = (Except.error (500, read_txt extract), { st with loaded_documents := dictSet st.loaded_documents dn ⟨read_txt extract, uploadFolder ++ ("contract.txt").data, now⟩ }) := by
      simp [upload_document, hfn, hallow, hdn, hload, hc]
    rw [hu]
    exact ⟨rfl, dictGet_set_self _ _ _⟩
  · have hu : (upload_document extract now ("contract.txt").data dn st)
        = (Except.ok ⟨dn, (read_txt extract).length⟩, { st with loaded_documents := dictSet st.loaded_documents dn ⟨read_txt extract, uploadFolder ++ ("contract.txt").data, now⟩ }) := by
      simp [upload_document, hfn, hallow, hdn, hload, hc]
    rw [hu]
    exact ⟨rfl, dictGet_set_self _ _ _⟩

/-- Witness for C10: an extraction whose text contains "Error" is reported
as a failure yet stored; a clean text is reported as a success and stored. -/
theorem claim_C10_upload_error_substring_witness :
    ((upload_document (Except.ok ("An Error occurred").data) ("ts").data
        ("contract.txt").data ("d").data emptyState).1
      = Except.error (500, read_txt (Except.ok ("An Error occurred").data))
    ∧ dictGet (upload_document (Except.ok ("An Error occurred").data) ("ts").data
        ("contract.txt").data ("d").data emptyState).2.loaded_documents ("d").data
      = some ⟨read_txt (Except.ok ("An Error occurred").data), uploadFolder ++ ("contract.txt").data, ("ts").data⟩)
    ∧ ((upload_document (Except.ok ("clean text").data) ("ts").data
        ("contract.txt").data ("d").data emptyState).1
      = Except.ok ⟨("d").data, (read_txt (Except.ok ("clean text").data)).length⟩
    ∧ dictGet (upload_document (Except.ok ("clean text").data) ("ts").data
        ("contract.txt").data ("d").data emptyState).2.loaded_documents ("d").data
      = some ⟨read_txt (Except.ok ("clean text").data), uploadFolder ++ ("contract.txt").data, ("ts").data⟩) :=
  ⟨(claim_C10_upload_error_substring (Except.ok ("An Error occurred").data) ("ts").data
      ("d").data emptyState (by decide)).1 (by decide),
   (claim_C10_upload_error_substring (Except.ok ("clean text").data) ("ts").data
      ("d").data emptyState (by decide)).2 (by decide)⟩

/-- Claim C2: the concerns interpreter selects the interior of a
json-labelled fenced block when one is present, else the interior of the
first generic fenced block, else the (stripped) raw text; it parses that
region with `json.loads` and returns the parsed value, and on parse failure
returns the empty list instead of raising; wrapping a fence-free body in a
json-labelled fenced block selects exactly the same region — hence the same
parsed value — as the bare body. -/
theorem claim_C2_concerns_interpreter (loads : JsonLoads) (body raw : PyStr) :
    ((∀ c ∈ body, c ≠ tick) →
        extractJsonRegion (wrapJson body) = extractJsonRegion body
        ∧ interpretModelJson loads (wrapJson body) = interpretModelJson loads body)
    ∧ (loads (extractJsonRegion raw) = none → interpretModelJson loads raw = Json.arr [])
    ∧ (containsSub fence (pyStrip raw) = false → extractJsonRegion raw = pyStrip raw) := by
  refine ⟨fun h => ?_, fun h => ?_, fun h => ?_⟩
  · have e := (extractJsonRegion_wrapJson body h).trans (extractJsonRegion_bare body h).symm
    refine ⟨e, ?_⟩
    simp only [interpretModelJson]
    rw [e]
  · simp only [interpretModelJson]
    rw [h]
  · have hj : containsSub fenceJson (pyStrip raw) = false := by
      have efj : fenceJson = fence ++ ("json").data := rfl
      rw [efj]
      exact containsSub_extend_false fence _ _ h
    simp only [extractJsonRegion]
    rw [hj, h]
    simp

/-- Witness for C2 at body "[1]" and unparsable raw "oops". -/
theorem claim_C2_concerns_interpreter_witness :
    (extractJsonRegion (wrapJson ("[1]").data) = extractJsonRegion ("[1]").data
      ∧ interpretModelJson (fun _ => none) (wrapJson ("[1]").data)
          = interpretModelJson (fun _ => none) ("[1]").data)
    ∧ interpretModelJson (fun _ => none) ("oops").data = Json.arr []
    ∧ extractJsonRegion ("oops").data = pyStrip ("oops").data :=
  ⟨(claim_C2_concerns_interpreter (fun _ => none) ("[1]").data ("oops").data).1 (by decide),
   (claim_C2_concerns_interpreter (fun _ => none) ("[1]").data ("oops").data).2.1 rfl,
   (claim_C2_concerns_interpreter (fun _ => none) ("[1]").data ("oops").data).2.2 (by decide)⟩
